import Mathlib

/-!
Verification of the Market-Team-Streamlit content pipeline (src/app.py,
src/gen.py) against its specification.

The embedding models every external HTTP call by its outcome, passed in as
an oracle value: `Except String α` stands for a call that either returned a
payload or raised `requests.exceptions.RequestException` with a message.
User-interface reports (`st.error`, `st.warning`) are part of each
operation's observable outcome, modelled as a `List UIMessage`.  Python
control flow is translated faithfully: bare `except:` blocks become `Option`
results, uncaught exceptions become an `Option PyError` component threaded
out of the computation, and Python truthiness of strings (both `None` and
`""` are falsy) is modelled by `py_truthy`.
-/

namespace MarketTeam

/-! ### Python string primitives

`str.split(sep)`, `str.split()`, `str.strip()`, `int(...)` and the `in`
substring test, modelled on `List Char` so that every definition is
structurally recursive and kernel-reducible. -/

/-- First occurrence split: `split_once? sep s = some (pre, post)` when
`s = pre ++ sep ++ post` at the leftmost occurrence of `sep`, `none` when
`sep` does not occur in `s`.  An empty `sep` matches immediately, like
Python's `"" in s`. -/
def split_once? (sep : List Char) : List Char → Option (List Char × List Char)
  | [] => if sep = [] then some ([], []) else none
  | c :: rest =>
    if sep.isPrefixOf (c :: rest) then some ([], (c :: rest).drop sep.length)
    else
      match split_once? sep rest with
      | some (pre, post) => some (c :: pre, post)
      | none => none

/-- Fuelled worker for `pysplit`: with `sep` nonempty, fuel `s.length + 1`
is enough to find every occurrence, since each found separator consumes at
least one character. -/
def pysplit_list (sep : List Char) : Nat → List Char → List (List Char)
  | 0, s => [s]
  | fuel + 1, s =>
    match split_once? sep s with
    | none => [s]
    | some (pre, post) => pre :: pysplit_list sep fuel post

/-- Python `s.split(sep)` for a nonempty separator. -/
def pysplit (sep s : String) : List String :=
  (pysplit_list sep.data (s.data.length + 1) s.data).map (fun l => ⟨l⟩)

/-- Worker for whitespace split: accumulates the current word reversed. -/
def pysplit_ws_list (acc : List Char) : List Char → List (List Char)
  | [] => if acc = [] then [] else [acc.reverse]
  | c :: rest =>
    if c.isWhitespace then
      if acc = [] then pysplit_ws_list [] rest
      else acc.reverse :: pysplit_ws_list [] rest
    else pysplit_ws_list (c :: acc) rest

/-- Python `s.split()` with no argument: split on whitespace runs, dropping
empty fields. -/
def pysplit_ws (s : String) : List String :=
  (pysplit_ws_list [] s.data).map (fun l => ⟨l⟩)

/-- Python `s.strip()`. -/
def pystrip (s : String) : String :=
  ⟨((s.data.dropWhile Char.isWhitespace).reverse.dropWhile Char.isWhitespace).reverse⟩

/-- Python substring test `needle in hay`. -/
def py_in (needle hay : String) : Bool :=
  (split_once? needle.data hay.data).isSome

/-- Decimal digit run to a number; `none` when empty or a non-digit occurs. -/
def pyint_digits? (cs : List Char) : Option Nat :=
  if cs = [] then none
  else if cs.all Char.isDigit then
    some (cs.foldl (fun a c => 10 * a + (c.toNat - 48)) 0)
  else none

/-- Python `int(tok)` on a whitespace-free token: optional sign followed by
decimal digits (underscore digit grouping and non-ASCII digits are not
modelled). -/
def pyint? (s : String) : Option Int :=
  match s.data with
  | '-' :: rest => (pyint_digits? rest).map (fun n => -(n : Int))
  | '+' :: rest => (pyint_digits? rest).map (fun n => (n : Int))
  | cs => (pyint_digits? cs).map (fun n => (n : Int))

/-- Python truthiness of an optional string: `None` and `""` are falsy. -/
def py_truthy : Option String → Bool
  | none => false
  | some s => if s = "" then false else true

/-- Python `sep.join(xs)`. -/
def pyjoin (sep : String) : List String → String
  | [] => ""
  | [x] => x
  | x :: y :: xs => x ++ sep ++ pyjoin sep (y :: xs)

/-! ### Data model -/

/-- One article of the search response: `{title, description, url}`. -/
structure Article where
  title : String
  description : String
  url : String
deriving DecidableEq

/-- A report shown on the UI surface: `st.warning` or `st.error`. -/
inductive UIMessage where
  | warning (text : String)
  | error (text : String)
deriving DecidableEq

/-- The triple returned by `fact_check_content`:
`(passed, confidence, explanation)`. -/
structure FactCheckResult where
  passed : Bool
  confidence : Int
  explanation : String
deriving DecidableEq

/-- One row of `st.session_state.pin_data_list`. -/
structure PinRecord where
  title : String
  media_url : String
  board : String
  thumbnail : String
  description : String
  link : String
  publish_date : String
  keywords : String
deriving DecidableEq

/-- The dictionary `st.session_state.generated_files`, an insertion-ordered
map from filename to a Python value (a string payload or `None`). -/
def FileDict : Type := List (String × Option String)

instance : DecidableEq FileDict := by
  unfold FileDict; infer_instance

/-- Python dict assignment `d[k] = v`: update in place, append when new. -/
def dictSet : FileDict → String → Option String → FileDict
  | [], k, v => [(k, v)]
  | (k', v') :: rest, k, v =>
    if k' = k then (k, v) :: rest else (k', v') :: dictSet rest k v

/-- Python dict lookup: `some v` when the key is bound to `v`. -/
def dictGet : FileDict → String → Option (Option String)
  | [], _ => none
  | (k', v') :: rest, k => if k' = k then some v' else dictGet rest k

/-- The mutable `st.session_state` fields the pipeline touches. -/
structure SessionState where
  step : String
  blog_post : Option String
  pin_data_list : List PinRecord
  generated_files : FileDict
deriving DecidableEq

/-- `st.session_state` right after first initialisation. -/
def init_state : SessionState :=
  { step := "start", blog_post := none, pin_data_list := [], generated_files := [] }

/-- The configuration fields the modelled pipeline reads.  `post_count` is
the Pinterest post count from the sidebar (the number of short-form units
requested). -/
structure Config where
  outputs : List String
  post_count : Nat
  affiliate_link : String
  seo_keywords : List String

/-- A Python exception escaping a pipeline operation uncaught. -/
inductive PyError where
  | indexError
  | attributeError
  | nameError
deriving DecidableEq

/-! ### External service wrappers

Each wrapper mirrors one function of src/app.py.  Its argument is the
outcome of the single HTTP call the source function performs: `Except.error
e` models `requests` raising with message `e` — which the source catches,
reports via `st.error`, and converts to a `None`/`[]` return.  No wrapper
retries: each consumes exactly one call outcome. -/

/-- The relevance filter inside `fetch_articles` (src/app.py:20-25): the
article's title or description contains one of the `required_keywords`,
case-insensitively. -/
def relevant_article (article : Article) : Bool :=
  ["mindfulness", "meditation", "stress", "mental"].any (fun keyword =>
    py_in keyword.toLower article.title.toLower
      || py_in keyword.toLower article.description.toLower)

/-- `fetch_articles` (src/app.py:11-29): on success, warn-and-return-[] for
an empty result set, else keep only relevant articles and return the first
five; on a request error, report it and return `[]`. -/
def fetch_articles (call : Except String (List Article)) :
    List UIMessage × List Article :=
  match call with
  | Except.error e => ([UIMessage.error ("Error fetching articles: " ++ e)], [])
  | Except.ok articles =>
    if articles = [] then ([UIMessage.warning "No relevant articles found."], [])
    else
      let filtered_articles := articles.filter relevant_article
      if filtered_articles = [] then ([], [])
      else ([], filtered_articles.take 5)

/-- `generate_content` (src/app.py:31-43): return the model text, or report
the request error and return `None`. -/
def generate_content (call : Except String String) :
    List UIMessage × Option String :=
  match call with
  | Except.ok text => ([], some text)
  | Except.error e => ([UIMessage.error ("Error generating content: " ++ e)], none)

/-- `generate_image` (src/app.py:45-64): image bytes or report-and-`None`. -/
def generate_image (call : Except String String) :
    List UIMessage × Option String :=
  match call with
  | Except.ok bytes => ([], some bytes)
  | Except.error e => ([UIMessage.error ("Error generating image: " ++ e)], none)

/-- `upscale_image` (src/app.py:80-91). -/
def upscale_image (call : Except String String) :
    List UIMessage × Option String :=
  match call with
  | Except.ok bytes => ([], some bytes)
  | Except.error e => ([UIMessage.error ("Error upscaling image: " ++ e)], none)

/-- `upload_image_to_bannerbear` (src/app.py:93-103). -/
def upload_image_to_bannerbear (call : Except String String) :
    List UIMessage × Option String :=
  match call with
  | Except.ok uid => ([], some uid)
  | Except.error e => ([UIMessage.error ("Error uploading to Bannerbear: " ++ e)], none)

/-- `create_video_rendering` (src/app.py:105-115): render-job submission. -/
def create_video_rendering (call : Except String String) :
    List UIMessage × Option String :=
  match call with
  | Except.ok uid => ([], some uid)
  | Except.error e => ([UIMessage.error ("Error creating video render: " ++ e)], none)

/-- `download_video` (src/app.py:134-141). -/
def download_video (call : Except String String) :
    List UIMessage × Option String :=
  match call with
  | Except.ok bytes => ([], some bytes)
  | Except.error e => ([UIMessage.error ("Error downloading video: " ++ e)], none)

/-- `upload_video_to_pinterest` (src/app.py:143-161): the publish call,
returning the pin URL on success. -/
def upload_video_to_pinterest (call : Except String String) :
    List UIMessage × Option String :=
  match call with
  | Except.ok pin_id => ([], some ("https://www.pinterest.com/pin/" ++ pin_id ++ "/"))
  | Except.error e => ([UIMessage.error ("Error uploading to Pinterest: " ++ e)], none)

/-! ### Render-job polling (`wait_for_video`, src/app.py:117-132) -/

/-- One poll of the render job: the GET either has status 200 with a JSON
`status` field of `completed` (with URL), `failed`, or anything else
(still rendering), or a non-200 HTTP status, which the loop ignores. -/
inductive PollResp where
  | completed (url : String)
  | failed
  | rendering
  | non200
deriving DecidableEq

/-- Terminal outcome of the polling loop. -/
inductive WaitOutcome where
  | completed (url : String)
  | failed
  | timedOut
deriving DecidableEq

/-- The `while time.time() - start_time < 600` loop: `poll t` is the poll
response at elapsed time `t`; each iteration sleeps 10 time units.  The
result also carries the list of elapsed times at which a poll was made.
The fuel argument (61 at the top level) only bounds the recursion; the
guard `elapsed < 600` is what stops the loop, and `wait_loop_never_done`
below shows all 60 iterations happen, so the fuel is never the cause of
exit. -/
def wait_loop (poll : Nat → PollResp) : Nat → Nat → WaitOutcome × List Nat
  | 0, _ => (WaitOutcome.timedOut, [])
  | fuel + 1, elapsed =>
    if elapsed < 600 then
      match poll elapsed with
      | PollResp.completed url => (WaitOutcome.completed url, [elapsed])
      | PollResp.failed => (WaitOutcome.failed, [elapsed])
      | _ =>
        match wait_loop poll fuel (elapsed + 10) with
        | (outcome, ts) => (outcome, elapsed :: ts)
    else (WaitOutcome.timedOut, [])

/-- `wait_for_video`: run the polling loop from elapsed time 0; `failed`
and timeout report distinct errors and return `None`, completion returns
the video URL. -/
def wait_for_video (poll : Nat → PollResp) : List UIMessage × Option String :=
  match (wait_loop poll 61 0).1 with
  | WaitOutcome.completed url => ([], some url)
  | WaitOutcome.failed => ([UIMessage.error "Video rendering failed."], none)
  | WaitOutcome.timedOut => ([UIMessage.error "Video rendering timed out."], none)

/-! ### Fact checking (`fact_check_content`, src/app.py:66-78) -/

/-- The `try:` block of `fact_check_content`: extract the integer after
`"Confidence:"` (first whitespace-separated token) and the text between the
first and second `" - "`; `none` models any exception caught by the bare
`except:`. -/
def parse_fact_check (response : String) : Option (Int × String) :=
  match (pysplit "Confidence:" response).get? 1 with
  | none => none
  | some after_marker =>
    match (pysplit_ws after_marker).get? 0 with
    | none => none
    | some tok =>
      match pyint? tok with
      | none => none
      | some confidence =>
        match (pysplit " - " response).get? 1 with
        | none => none
        | some explanation => some (confidence, explanation)

/-- `fact_check_content`, given the verification model call's returned text
(`none` for a failed call).  Python truthiness folds both `None` and the
empty response into the `Fact-checking failed.` branch. -/
def fact_check_content (response : Option String) : FactCheckResult :=
  match response with
  | none => { passed := false, confidence := 0, explanation := "Fact-checking failed." }
  | some r =>
    if r = "" then
      { passed := false, confidence := 0, explanation := "Fact-checking failed." }
    else
      match parse_fact_check r with
      | some (confidence, explanation) =>
        { passed := decide (60 ≤ confidence), confidence := confidence,
          explanation := explanation }
      | none =>
        { passed := false, confidence := 50,
          explanation := "Failed to parse fact-check response." }

/-! ### Short-form generation (`generate_pinterest_content`, src/app.py:307-347) -/

/-- The outcomes of the external calls one short-form unit makes, in source
order: copy generation, image generation, upscaling, image upload, render
submission, the poll responses of `wait_for_video`, video download, and the
publish call. -/
structure UnitEnv where
  copy : Except String String
  image : Except String String
  upscale : Except String String
  bb : Except String String
  render : Except String String
  poll : Nat → PollResp
  download : Except String String
  publish : Except String String

/-- The strict label-based parse of the short-form copy
(src/app.py:313-315): text after `"Title:"` up to the newline, stripped;
same for `"Description:"`; the whitespace-split tokens after `"Hashtags:"`.
`none` models the uncaught `IndexError` when a label is absent. -/
def parse_pin_copy (post : String) : Option (String × String × List String) :=
  match (pysplit "Title:" post).get? 1 with
  | none => none
  | some t1 =>
    match (pysplit "Description:" post).get? 1 with
    | none => none
    | some d1 =>
      match (pysplit "Hashtags:" post).get? 1 with
      | none => none
      | some h1 =>
        some (pystrip ((pysplit "\n" t1).headD ""),
              pystrip ((pysplit "\n" d1).headD ""),
              pysplit_ws h1)

/-- The filename under which unit `i` (0-based) stores its video:
`f"pinterest_video_{i+1}.mp4"`. -/
def video_key (i : Nat) : String :=
  "pinterest_video_" ++ Nat.repr (i + 1) ++ ".mp4"

/-- The `pin_data_list` row appended on publish success
(src/app.py:337-346). -/
def pin_record (cfg : Config) (title description pin_url : String) : PinRecord :=
  { title := title, media_url := pin_url, board := "Mindfulness Tips",
    thumbnail := "", description := description, link := cfg.affiliate_link,
    publish_date := "", keywords := pyjoin ", " cfg.seo_keywords }

/-- The media/publish chain of one unit (src/app.py:317-347): each stage
runs only when the previous stage's result is truthy, mirroring the nested
`if`s; only full success appends the pin row and the video artifact. -/
def unit_media (cfg : Config) (env : UnitEnv) (i : Nat)
    (title description : String) (st : SessionState) :
    SessionState × List UIMessage :=
  match generate_image env.image with
  | (m1, b1) =>
    if py_truthy b1 then
      match upscale_image env.upscale with
      | (m2, b2) =>
        if py_truthy b2 then
          match upload_image_to_bannerbear env.bb with
          | (m3, b3) =>
            if py_truthy b3 then
              match create_video_rendering env.render with
              | (m4, b4) =>
                if py_truthy b4 then
                  match wait_for_video env.poll with
                  | (m5, b5) =>
                    if py_truthy b5 then
                      match download_video env.download with
                      | (m6, b6) =>
                        if py_truthy b6 then
                          match upload_video_to_pinterest env.publish with
                          | (m7, b7) =>
                            if py_truthy b7 then
                              ({ st with
                                  pin_data_list := st.pin_data_list
                                    ++ [pin_record cfg title description (b7.getD "")],
                                  generated_files := dictSet st.generated_files
                                    (video_key i) (some (b6.getD "")) },
                                m1 ++ m2 ++ m3 ++ m4 ++ m5 ++ m6 ++ m7)
                            else (st, m1 ++ m2 ++ m3 ++ m4 ++ m5 ++ m6 ++ m7)
                        else (st, m1 ++ m2 ++ m3 ++ m4 ++ m5 ++ m6)
                    else (st, m1 ++ m2 ++ m3 ++ m4 ++ m5)
                else (st, m1 ++ m2 ++ m3 ++ m4)
            else (st, m1 ++ m2 ++ m3)
        else (st, m1 ++ m2)
    else (st, m1)

/-- One iteration of the `for i in range(config["post_ratio"])` loop.  The
copy text is parsed with no exception handler: a `None` response raises
`AttributeError` at `.split`, a missing label raises `IndexError`; either
aborts the iteration (and, through `gen_pin_loop`, the whole loop) with the
session state as mutated so far. -/
def pinterest_unit (cfg : Config) (env : UnitEnv) (i : Nat) (st : SessionState) :
    SessionState × List UIMessage × Option PyError :=
  match generate_content env.copy with
  | (m0, post?) =>
    match post? with
    | none => (st, m0, some PyError.attributeError)
    | some post =>
      match parse_pin_copy post with
      | none => (st, m0, some PyError.indexError)
      | some (title, description, _hashtags) =>
        match unit_media cfg env i title description st with
        | (st', m) => (st', m0 ++ m, none)

/-- The loop over unit indices `i, i+1, ...` for `n` more units.  An
uncaught exception in one iteration propagates: the remaining iterations
never run, but state mutations already made persist (Streamlit session
state outlives the script run). -/
def gen_pin_loop (cfg : Config) (envs : Nat → UnitEnv) :
    Nat → Nat → SessionState → SessionState × List UIMessage × Option PyError
  | _, 0, st => (st, [], none)
  | i, n + 1, st =>
    match pinterest_unit cfg (envs i) i st with
    | (st', m, some e) => (st', m, some e)
    | (st', m, none) =>
      match gen_pin_loop cfg envs (i + 1) n st' with
      | (st'', m2, r) => (st'', m ++ m2, r)

/-- `generate_pinterest_content` (src/app.py:307-347): run every requested
short-form unit in order. -/
def generate_pinterest_content (cfg : Config) (envs : Nat → UnitEnv)
    (st : SessionState) : SessionState × List UIMessage × Option PyError :=
  gen_pin_loop cfg envs 0 cfg.post_count st

/-! ### Orchestrator steps (`main`, src/app.py:164-305) -/

/-- The call outcomes consumed by the Start Generation block: the article
search, the draft generation call, and the fact-check model call. -/
structure StartOracles where
  search : Except String (List Article)
  draft : Except String String
  factcheck : Except String String

/-- The call outcomes consumed by the `generate_images` block: the blog
image prompt, blog image, blog upscale calls, and the per-unit outcomes of
the short-form loop. -/
structure MediaOracles where
  blog_prompt : Except String String
  blog_image : Except String String
  blog_upscale : Except String String
  units : Nat → UnitEnv

/-- The Start Generation block (src/app.py:217-232): fetch references,
generate the draft, fact-check it; only a passing draft is stored and
surfaced for approval, a failing one is discarded with a warning carrying
the score and explanation. -/
def start_generation (cfg : Config) (o : StartOracles) (st : SessionState) :
    SessionState × List UIMessage :=
  match fetch_articles o.search with
  | (m1, _articles) =>
    if cfg.outputs.contains "blog" || cfg.outputs.contains "pinterest" then
      match generate_content o.draft with
      | (m2, blog_post?) =>
        if py_truthy blog_post? then
          match generate_content o.factcheck with
          | (m3, fact_response) =>
            let fc := fact_check_content fact_response
            if fc.passed then
              ({ st with
                  blog_post := blog_post?,
                  generated_files := dictSet st.generated_files "blog_post.txt" blog_post?,
                  step := "approve_blog" },
                m1 ++ m2 ++ m3)
            else
              (st, m1 ++ m2 ++ m3
                ++ [UIMessage.warning ("Fact-check failed: " ++ toString fc.confidence
                      ++ "% - " ++ fc.explanation)])
        else (st, m1 ++ m2)
    else (st, m1)

/-- The blog-image branch of the `generate_images` block
(src/app.py:256-266): prompt, image, upscale; only a truthy upscaled image
is stored, under `blog_image_upscaled.png`. -/
def blog_image_branch (cfg : Config) (m : MediaOracles) (st : SessionState) :
    SessionState × List UIMessage :=
  if cfg.outputs.contains "blog" then
    match generate_content m.blog_prompt with
    | (g1, _prompt?) =>
      match generate_image m.blog_image with
      | (g2, img?) =>
        if py_truthy img? then
          match upscale_image m.blog_upscale with
          | (g3, up?) =>
            if py_truthy up? then
              ({ st with generated_files :=
                  dictSet st.generated_files "blog_image_upscaled.png" up? },
                g1 ++ g2 ++ g3)
            else (st, g1 ++ g2 ++ g3)
        else (st, g1 ++ g2)
  else (st, [])

/-- The `generate_images` block (src/app.py:255-271): the blog image
branch, then the short-form loop, then `step = "done"` — which is not
reached when the loop raises. -/
def generate_images_step (cfg : Config) (m : MediaOracles) (st : SessionState) :
    SessionState × List UIMessage × Option PyError :=
  match blog_image_branch cfg m st with
  | (stA, mA) =>
    if cfg.outputs.contains "pinterest" && py_truthy stA.blog_post then
      match generate_pinterest_content cfg m.units stA with
      | (stB, mB, some e) => (stB, mA ++ mB, some e)
      | (stB, mB, none) => ({ stB with step := "done" }, mA ++ mB, none)
    else ({ stA with step := "done" }, mA, none)

/-- One Streamlit interaction with the app (src/app.py:209-271): which
widget event fired, with the oracle outcomes of the calls it triggers.
`revise` carries the feedback text; the revision call itself is never
reached, see `app_step`. -/
inductive Event where
  | startGen (o : StartOracles)
  | approve
  | reject
  | revise (feedback : String)
  | generateImages (m : MediaOracles)

/-- The state transition of one interaction.  The approval-block buttons
are guarded by `step == "approve_blog" and st.session_state.blog_post`.
`revise` with nonempty feedback evaluates `reference_links` (assigned only
inside the Start Generation branch of this same script run, src/app.py:220
and 250), so it raises `NameError` before any state is written. -/
def app_step (cfg : Config) (ev : Event) (st : SessionState) :
    SessionState × List UIMessage × Option PyError :=
  match ev with
  | Event.startGen o =>
    match start_generation cfg o st with
    | (st', m) => (st', m, none)
  | Event.approve =>
    if st.step = "approve_blog" && py_truthy st.blog_post then
      ({ st with step := "generate_images" }, [], none)
    else (st, [], none)
  | Event.reject =>
    if st.step = "approve_blog" && py_truthy st.blog_post then
      ({ st with step := "start", blog_post := none }, [], none)
    else (st, [], none)
  | Event.revise feedback =>
    if st.step = "approve_blog" && py_truthy st.blog_post then
      if feedback = "" then (st, [], none)
      else (st, [], some PyError.nameError)
    else (st, [], none)
  | Event.generateImages m =>
    if st.step = "generate_images" then generate_images_step cfg m st
    else (st, [], none)

/-- Run a sequence of interactions from a state, accumulating reports; an
uncaught exception ends one script run but the session survives, so later
events still apply. -/
def exec_events (cfg : Config) : List Event → SessionState → SessionState × List UIMessage
  | [], st => (st, [])
  | ev :: rest, st =>
    match app_step cfg ev st with
    | (st', m, _) =>
      match exec_events cfg rest st' with
      | (st'', m2) => (st'', m ++ m2)

/-- The event sequence of one pipeline run: Start Generation, any number of
revision attempts, approval, then media generation. -/
def run_events (o : StartOracles) (revs : List String) (m : MediaOracles) :
    List Event :=
  Event.startGen o :: (revs.map Event.revise ++ [Event.approve, Event.generateImages m])

/-! ### Claim theorems: FactChecker and ReferenceFetcher -/

/-- C1 (amended): `fact_check_content` with `"Confidence: 85 - looks
accurate"` returns passed with confidence 85 and the explanation after
`" - "`; whenever the parse succeeds, passed holds exactly when the parsed
confidence is at least 60; every nonempty response on which the parse fails
yields exactly the conservative `(false, 50, "Failed to parse fact-check
response.")` triple; the function is total, so no parse failure escapes to
the caller. -/
theorem fact_check_content_spec :
    fact_check_content (some "Confidence: 85 - looks accurate")
      = { passed := true, confidence := 85, explanation := "looks accurate" }
    ∧ (∀ r c e, parse_fact_check r = some (c, e) → r ≠ "" →
        fact_check_content (some r)
          = { passed := decide (60 ≤ c), confidence := c, explanation := e }
        ∧ ((fact_check_content (some r)).passed = true ↔ 60 ≤ c))
    ∧ (∀ r, r ≠ "" → parse_fact_check r = none →
        fact_check_content (some r)
          = { passed := false, confidence := 50,
              explanation := "Failed to parse fact-check response." }) := by
  refine ⟨rfl, ?_, ?_⟩
  · intro r c e hparse hne
    constructor
    · simp [fact_check_content, hne, hparse]
    · simp [fact_check_content, hne, hparse]
  · intro r hne hparse
    simp [fact_check_content, hne, hparse]

/-- C1, counterexample to the claim as stated: the empty string is a model
response from which neither the confidence nor the explanation can be
parsed, yet `fact_check_content` does not return the confidence-50
placeholder for it — Python truthiness sends `""` into the failed-call
branch with confidence 0. -/
theorem fact_check_empty_response :
    parse_fact_check "" = none
    ∧ fact_check_content (some "")
        = { passed := false, confidence := 0, explanation := "Fact-checking failed." }
    ∧ fact_check_content (some "")
        ≠ { passed := false, confidence := 50,
            explanation := "Failed to parse fact-check response." } := by
  exact ⟨rfl, rfl, by decide⟩

/-- C10: when the verification model call itself returns no response,
`fact_check_content` returns passed=false with confidence 0 and the fixed
`Fact-checking failed.` explanation — an outcome distinct from the
confidence-50 unparseable fallback. -/
theorem fact_check_model_failure :
    fact_check_content none
      = { passed := false, confidence := 0, explanation := "Fact-checking failed." }
    ∧ (fact_check_content none).confidence
        ≠ (fact_check_content (some "garbage")).confidence := by
  exact ⟨rfl, by decide⟩

/-- C6: for every article-search outcome, `fetch_articles` returns at most
5 articles, each passing the fixed relevance filter; the no-results case
returns the empty list with a warning, and the none-pass-the-filter case
returns the empty list — in every case it returns normally. -/
theorem fetch_articles_bounded_filtered (call : Except String (List Article)) :
    (fetch_articles call).2.length ≤ 5
    ∧ (∀ a ∈ (fetch_articles call).2, relevant_article a = true)
    ∧ fetch_articles (Except.ok [])
        = ([UIMessage.warning "No relevant articles found."], [])
    ∧ (∀ articles, articles.filter relevant_article = [] →
        (fetch_articles (Except.ok articles)).2 = []) := by
  refine ⟨?_, ?_, rfl, ?_⟩
  · cases call with
    | error e => simp [fetch_articles]
    | ok articles =>
      by_cases h : articles = []
      · subst h; simp [fetch_articles]
      · simp only [fetch_articles, if_neg h]
        by_cases h2 : articles.filter relevant_article = []
        · simp [h2]
        · simp only [if_neg h2]
          exact List.length_take_le 5 _
  · intro a ha
    cases call with
    | error e => simp [fetch_articles] at ha
    | ok articles =>
      by_cases h : articles = []
      · subst h; simp [fetch_articles] at ha
      · simp only [fetch_articles, if_neg h] at ha
        by_cases h2 : articles.filter relevant_article = []
        · simp [h2] at ha
        · simp only [if_neg h2] at ha
          exact (List.mem_filter.mp (List.mem_of_mem_take ha)).2
  · intro articles hfil
    by_cases h : articles = []
    · subst h; rfl
    · simp [fetch_articles, if_neg h, hfil]

/-- C7: a transport/HTTP error of the article search is reported to the
caller as an error message and yields the empty article list; the reported
outcome differs from that of every successful search, including the
empty-result one (which warns instead). -/
theorem fetch_articles_error_distinct (e : String) :
    fetch_articles (Except.error e)
      = ([UIMessage.error ("Error fetching articles: " ++ e)], [])
    ∧ (∀ articles, fetch_articles (Except.error e) ≠ fetch_articles (Except.ok articles)) := by
  refine ⟨rfl, ?_⟩
  intro articles h
  have h1 : (fetch_articles (Except.error e)).1 = (fetch_articles (Except.ok articles)).1 := by
    rw [h]
  by_cases ha : articles = []
  · subst ha; simp [fetch_articles] at h1
  · simp only [fetch_articles, if_neg ha] at h1
    by_cases h2 : articles.filter relevant_article = []
    · simp [h2] at h1
    · rw [if_neg h2] at h1
      simp at h1

/-! ### Claim theorems: render-job polling -/

/-- Helper: every poll happens at a multiple of 10 before the 600 bound,
and ten times the number of polls is bounded by the time remaining. -/
theorem wait_loop_times (poll : Nat → PollResp) :
    ∀ fuel elapsed, elapsed % 10 = 0 →
      10 * (wait_loop poll fuel elapsed).2.length ≤ 600 - elapsed
      ∧ ∀ t ∈ (wait_loop poll fuel elapsed).2, t % 10 = 0 ∧ t < 600 := by
  intro fuel
  induction fuel with
  | zero => intro elapsed _; simp [wait_loop]
  | succ fuel ih =>
    intro elapsed hmod
    by_cases h : elapsed < 600
    · rcases hw : wait_loop poll fuel (elapsed + 10) with ⟨o, ts⟩
      have ih10 := ih (elapsed + 10) (by omega)
      rw [hw] at ih10
      have ihlen : 10 * ts.length ≤ 600 - (elapsed + 10) := ih10.1
      have ihmem : ∀ t ∈ ts, t % 10 = 0 ∧ t < 600 := ih10.2
      cases hp : poll elapsed with
      | completed url => simp [wait_loop, h, hp]; omega
      | failed => simp [wait_loop, h, hp]; omega
      | rendering =>
        simp only [wait_loop, if_pos h, hp, hw]
        refine ⟨by simp; omega, ?_⟩
        intro t ht
        rcases List.mem_cons.mp ht with rfl | ht
        · exact ⟨hmod, h⟩
        · exact ihmem t ht
      | non200 =>
        simp only [wait_loop, if_pos h, hp, hw]
        refine ⟨by simp; omega, ?_⟩
        intro t ht
        rcases List.mem_cons.mp ht with rfl | ht
        · exact ⟨hmod, h⟩
        · exact ihmem t ht
    · simp [wait_loop, h]

/-- Helper: when no poll response is terminal, the loop runs its full
course — `k` more iterations when `elapsed + 10 * k = 600` — and exits by
the time guard with `timedOut`.  In particular the fuel bound of
`wait_for_video` is never what stops it. -/
theorem wait_loop_never_done (poll : Nat → PollResp)
    (hp : ∀ t, poll t = PollResp.rendering ∨ poll t = PollResp.non200) :
    ∀ k fuel elapsed, elapsed + 10 * k = 600 → k ≤ fuel →
      (wait_loop poll fuel elapsed).1 = WaitOutcome.timedOut
      ∧ (wait_loop poll fuel elapsed).2.length = k := by
  intro k
  induction k with
  | zero =>
    intro fuel elapsed he _
    have h : ¬ elapsed < 600 := by omega
    cases fuel with
    | zero => simp [wait_loop]
    | succ fuel => simp [wait_loop, h]
  | succ k ih =>
    intro fuel elapsed he hk
    have h : elapsed < 600 := by omega
    cases fuel with
    | zero => omega
    | succ fuel =>
      rcases hw : wait_loop poll fuel (elapsed + 10) with ⟨o, ts⟩
      have ihr := ih fuel (elapsed + 10) (by omega) (by omega)
      rw [hw] at ihr
      have ihr1 : o = WaitOutcome.timedOut := ihr.1
      have ihr2 : ts.length = k := ihr.2
      rcases hp elapsed with hpe | hpe
      · simp only [wait_loop, if_pos h, hpe, hw]
        exact ⟨ihr1, by simp [ihr2]⟩
      · simp only [wait_loop, if_pos h, hpe, hw]
        exact ⟨ihr1, by simp [ihr2]⟩

/-- C4: for every sequence of render-job poll responses, the polling loop
makes at most 60 polls, each at a multiple of 10 time units strictly below
the 600-unit timeout; and when the remote job never reaches a terminal
state, the loop runs all 60 polls and ends with the timed-out outcome —
reported as `Video rendering timed out.` with no video URL — rather than
hanging. -/
theorem wait_for_video_bounded (poll : Nat → PollResp) :
    ((wait_loop poll 61 0).2.length ≤ 60
      ∧ (∀ t ∈ (wait_loop poll 61 0).2, t % 10 = 0 ∧ t < 600))
    ∧ ((∀ t, poll t = PollResp.rendering ∨ poll t = PollResp.non200) →
        (wait_loop poll 61 0).1 = WaitOutcome.timedOut
        ∧ (wait_loop poll 61 0).2.length = 60
        ∧ wait_for_video poll = ([UIMessage.error "Video rendering timed out."], none)) := by
  constructor
  · have h := wait_loop_times poll 61 0 (by norm_num)
    exact ⟨by omega, h.2⟩
  · intro hp
    have h := wait_loop_never_done poll hp 60 61 0 (by norm_num) (by norm_num)
    refine ⟨h.1, h.2, ?_⟩
    simp [wait_for_video, h.1]

/-! ### Unit-level case lemmas -/

/-- Helper: the pin URL built from a pin id is never the empty string, so
it always passes the Python truthiness check. -/
theorem pin_url_ne_empty (pu : String) :
    ("https://www.pinterest.com/pin/" ++ pu ++ "/") ≠ "" := by
  intro h
  have h2 : ("https://www.pinterest.com/pin/" ++ pu ++ "/").data = [] := by
    rw [h]
  rw [String.data_append, String.data_append] at h2
  rcases List.append_eq_nil.mp h2 with ⟨h3, _⟩
  rcases List.append_eq_nil.mp h3 with ⟨h4, _⟩
  exact absurd h4 (by decide)

/-- Helper: the media/publish chain either leaves the session state exactly
as it was, or — only when the render submission, the download and the
publish call all returned — appends the one pin row and stores the one
video artifact under this unit's filename. -/
theorem unit_media_cases (cfg : Config) (env : UnitEnv) (i : Nat)
    (title description : String) (st : SessionState) :
    (unit_media cfg env i title description st).1 = st
    ∨ ∃ r vb pu, env.render = Except.ok r ∧ env.download = Except.ok vb
        ∧ env.publish = Except.ok pu
        ∧ (unit_media cfg env i title description st).1
            = { st with
                pin_data_list := st.pin_data_list
                  ++ [pin_record cfg title description
                        ("https://www.pinterest.com/pin/" ++ pu ++ "/")],
                generated_files := dictSet st.generated_files (video_key i) (some vb) } := by
  obtain ⟨c, img, ups, bb, rnd, pl, dl, pub⟩ := env
  rcases img with eimg | bimg
  · left; simp [unit_media, generate_image, py_truthy]
  · by_cases hb : bimg = ""
    · left; simp [unit_media, generate_image, py_truthy, hb]
    · rcases ups with eups | bups
      · left; simp [unit_media, generate_image, upscale_image, py_truthy, hb]
      · by_cases hb2 : bups = ""
        · left; simp [unit_media, generate_image, upscale_image, py_truthy, hb, hb2]
        · rcases bb with ebb | bbid
          · left
            simp [unit_media, generate_image, upscale_image,
              upload_image_to_bannerbear, py_truthy, hb, hb2]
          · by_cases hb3 : bbid = ""
            · left
              simp [unit_media, generate_image, upscale_image,
                upload_image_to_bannerbear, py_truthy, hb, hb2, hb3]
            · rcases rnd with ernd | ruid
              · left
                simp [unit_media, generate_image, upscale_image,
                  upload_image_to_bannerbear, create_video_rendering, py_truthy,
                  hb, hb2, hb3]
              · by_cases hb4 : ruid = ""
                · left
                  simp [unit_media, generate_image, upscale_image,
                    upload_image_to_bannerbear, create_video_rendering, py_truthy,
                    hb, hb2, hb3, hb4]
                · rcases hw : wait_for_video pl with ⟨m5, b5⟩
                  rcases b5 with _ | url
                  · left
                    simp [unit_media, generate_image, upscale_image,
                      upload_image_to_bannerbear, create_video_rendering, py_truthy,
                      hb, hb2, hb3, hb4, hw]
                  · by_cases hb5 : url = ""
                    · left
                      simp [unit_media, generate_image, upscale_image,
                        upload_image_to_bannerbear, create_video_rendering, py_truthy,
                        hb, hb2, hb3, hb4, hw, hb5]
                    · rcases dl with edl | vb
                      · left
                        simp [unit_media, generate_image, upscale_image,
                          upload_image_to_bannerbear, create_video_rendering,
                          download_video, py_truthy, hb, hb2, hb3, hb4, hw, hb5]
                      · by_cases hb6 : vb = ""
                        · left
                          simp [unit_media, generate_image, upscale_image,
                            upload_image_to_bannerbear, create_video_rendering,
                            download_video, py_truthy, hb, hb2, hb3, hb4, hw, hb5, hb6]
                        · rcases pub with epub | pu
                          · left
                            simp [unit_media, generate_image, upscale_image,
                              upload_image_to_bannerbear, create_video_rendering,
                              download_video, upload_video_to_pinterest, py_truthy,
                              hb, hb2, hb3, hb4, hw, hb5, hb6]
                          · right
                            refine ⟨ruid, vb, pu, rfl, rfl, rfl, ?_⟩
                            simp [unit_media, generate_image, upscale_image,
                              upload_image_to_bannerbear, create_video_rendering,
                              download_video, upload_video_to_pinterest, py_truthy,
                              hb, hb2, hb3, hb4, hw, hb5, hb6, pin_url_ne_empty pu]

/-- Helper: one short-form unit either leaves the state untouched, or —
the render submission having succeeded — appends exactly its own pin row
and its own video artifact keyed by `video_key i`. -/
theorem pinterest_unit_state_cases (cfg : Config) (env : UnitEnv) (i : Nat)
    (st : SessionState) :
    (pinterest_unit cfg env i st).1 = st
    ∨ ∃ t d r vb pu, env.render = Except.ok r
        ∧ (pinterest_unit cfg env i st).1
            = { st with
                pin_data_list := st.pin_data_list
                  ++ [pin_record cfg t d ("https://www.pinterest.com/pin/" ++ pu ++ "/")],
                generated_files := dictSet st.generated_files (video_key i) (some vb) } := by
  rcases hc : env.copy with e | p
  · left; simp [pinterest_unit, generate_content, hc]
  · rcases hp : parse_pin_copy p with _ | ⟨t, d, hs⟩
    · left; simp [pinterest_unit, generate_content, hc, hp]
    · rcases hu : unit_media cfg env i t d st with ⟨st', m⟩
      have hcases := unit_media_cases cfg env i t d st
      rw [hu] at hcases
      rcases hcases with h1 | ⟨r, vb, pu, hr, hd, hpub, h2⟩
      · left
        simp only [pinterest_unit, generate_content, hc, hp, hu]
        exact h1
      · right
        refine ⟨t, d, r, vb, pu, hr, ?_⟩
        simp only [pinterest_unit, generate_content, hc, hp, hu]
        exact h2

/-- Helper: a unit whose copy response parses never raises. -/
theorem pinterest_unit_no_raise (cfg : Config) (env : UnitEnv) (i : Nat)
    (st : SessionState) (p : String)
    (hc : env.copy = Except.ok p) (hp : (parse_pin_copy p).isSome) :
    (pinterest_unit cfg env i st).2.2 = none := by
  rcases hpp : parse_pin_copy p with _ | ⟨t, d, hs⟩
  · rw [hpp] at hp; simp at hp
  · rcases hu : unit_media cfg env i t d st with ⟨st', m⟩
    simp [pinterest_unit, generate_content, hc, hpp, hu]

/-! ### Concrete run scenarios -/

/-- A pinterest-only configuration requesting three short-form units. -/
def cfg3 : Config :=
  { outputs := ["pinterest"], post_count := 3,
    affiliate_link := "https://payhip.com/b/tnVQN",
    seo_keywords := ["mindfulness bundle", "stress relief"] }

/-- A unit whose every external call succeeds; the copy titles the unit by
its 1-based index. -/
def env_full (i : Nat) : UnitEnv :=
  { copy := Except.ok ("Title: T" ++ Nat.repr (i + 1)
      ++ "\nDescription: D\nHashtags: #x #y"),
    image := Except.ok "img", upscale := Except.ok "ups", bb := Except.ok "uid",
    render := Except.ok "ruid", poll := fun _ => PollResp.completed "http://v",
    download := Except.ok "vid", publish := Except.ok "123" }

/-- All calls succeed but the copy lacks the `Title:` label. -/
def env_no_title (i : Nat) : UnitEnv :=
  { env_full i with copy := Except.ok "Description: D\nHashtags: #x #y" }

/-- All calls succeed except the render-job submission. -/
def env_render_fail (i : Nat) : UnitEnv :=
  { env_full i with render := Except.error "boom" }

/-- Three units, the first with a malformed copy response. -/
def envs_missing_title : Nat → UnitEnv :=
  fun i => if i = 0 then env_no_title i else env_full i

/-- Three units, the second failing at render submission. -/
def envs_render_fail : Nat → UnitEnv :=
  fun i => if i = 1 then env_render_fail i else env_full i

/-- Start Generation oracles: no articles, a draft, a passing fact-check. -/
def start_ok : StartOracles :=
  { search := Except.ok [], draft := Except.ok "draft one",
    factcheck := Except.ok "Confidence: 95 - solid" }

/-- Media oracles for the render-failure scenario. -/
def media_render_fail : MediaOracles :=
  { blog_prompt := Except.ok "p", blog_image := Except.ok "bi",
    blog_upscale := Except.ok "bu", units := envs_render_fail }

/-! ### Claim theorems: the short-form loop -/

/-- C2, code evaluated at the failing input: with three units requested and
unit 1's copy response lacking the `Title:` label, the parse raises an
uncaught `IndexError` that aborts the whole loop — the session state is
untouched, so the two sibling units (which, run alone, publish fine, as the
last conjunct shows for unit 2) are skipped as well, contradicting the
per-item-failure contract. -/
theorem pinterest_parse_crash :
    (generate_pinterest_content cfg3 envs_missing_title init_state).2.2
        = some PyError.indexError
    ∧ (generate_pinterest_content cfg3 envs_missing_title init_state).1 = init_state
    ∧ (pinterest_unit cfg3 (envs_missing_title 1) 1 init_state).1.pin_data_list.length = 1
    ∧ (pinterest_unit cfg3 (envs_missing_title 1) 1 init_state).2.2 = none := by
  exact ⟨by decide, by decide, by decide, by decide⟩

/-- C3: in the three-unit run where unit 2's render submission fails, the
loop raises nothing, the manifest ends with exactly the two published
sibling rows and their two video artifacts, unit 2's video filename is
absent, and the full run still reaches the `done` step; in general, a unit
whose copy parses but whose render submission errors leaves the state
unchanged and raises nothing, so siblings and the run continue. -/
theorem render_failure_unit_scoped :
    ((generate_pinterest_content cfg3 envs_render_fail init_state).2.2 = none
      ∧ (generate_pinterest_content cfg3 envs_render_fail init_state).1.pin_data_list.map
          PinRecord.title = ["T1", "T3"]
      ∧ dictGet (generate_pinterest_content cfg3 envs_render_fail init_state).1.generated_files
          "pinterest_video_1.mp4" = some (some "vid")
      ∧ dictGet (generate_pinterest_content cfg3 envs_render_fail init_state).1.generated_files
          "pinterest_video_2.mp4" = none
      ∧ dictGet (generate_pinterest_content cfg3 envs_render_fail init_state).1.generated_files
          "pinterest_video_3.mp4" = some (some "vid")
      ∧ (exec_events cfg3 (run_events start_ok [] media_render_fail) init_state).1.step
          = "done")
    ∧ (∀ (cfg : Config) (env : UnitEnv) (i : Nat) (st : SessionState) (p e : String),
        env.copy = Except.ok p → (parse_pin_copy p).isSome →
        env.render = Except.error e →
        (pinterest_unit cfg env i st).1 = st
          ∧ (pinterest_unit cfg env i st).2.2 = none) := by
  constructor
  · exact ⟨by decide, by decide, by decide, by decide, by decide, by decide⟩
  · intro cfg env i st p e hc hp hr
    refine ⟨?_, pinterest_unit_no_raise cfg env i st p hc hp⟩
    rcases pinterest_unit_state_cases cfg env i st with h | ⟨t, d, r, vb, pu, hrok, _⟩
    · exact h
    · rw [hr] at hrok; exact absurd hrok (by simp)

/-- C8: once a unit has reached the publish call (copy parsed, every media
stage returned a truthy value), publish success appends exactly the unit's
pin row and its video artifact; publish failure appends neither, reports
the upload error, and raises nothing, so the run continues. -/
theorem publish_outcome_per_unit
    (cfg : Config) (env : UnitEnv) (i : Nat) (st : SessionState)
    (p t d : String) (hs : List String) (b u bbid r vb url : String)
    (hc : env.copy = Except.ok p) (hp : parse_pin_copy p = some (t, d, hs))
    (hi : env.image = Except.ok b) (hb : b ≠ "")
    (hup : env.upscale = Except.ok u) (hu2 : u ≠ "")
    (hbb : env.bb = Except.ok bbid) (hbb2 : bbid ≠ "")
    (hr : env.render = Except.ok r) (hr2 : r ≠ "")
    (hw : (wait_for_video env.poll).2 = some url) (hurl : url ≠ "")
    (hd : env.download = Except.ok vb) (hvb : vb ≠ "") :
    (∀ pu, env.publish = Except.ok pu →
      (pinterest_unit cfg env i st).1.pin_data_list
          = st.pin_data_list
            ++ [pin_record cfg t d ("https://www.pinterest.com/pin/" ++ pu ++ "/")]
        ∧ (pinterest_unit cfg env i st).1.generated_files
            = dictSet st.generated_files (video_key i) (some vb)
        ∧ (pinterest_unit cfg env i st).2.2 = none)
    ∧ (∀ e, env.publish = Except.error e →
        (pinterest_unit cfg env i st).1 = st
        ∧ UIMessage.error ("Error uploading to Pinterest: " ++ e)
            ∈ (pinterest_unit cfg env i st).2.1
        ∧ (pinterest_unit cfg env i st).2.2 = none) := by
  rcases hwp : wait_for_video env.poll with ⟨m5, b5⟩
  rw [hwp] at hw
  simp only at hw
  subst hw
  constructor
  · intro pu hpub
    simp [pinterest_unit, unit_media, generate_content, generate_image,
      upscale_image, upload_image_to_bannerbear, create_video_rendering,
      download_video, upload_video_to_pinterest, py_truthy,
      hc, hp, hi, hb, hup, hu2, hbb, hbb2, hr, hr2, hwp, hurl, hd, hvb, hpub,
      pin_url_ne_empty pu]
  · intro e hpub
    simp [pinterest_unit, unit_media, generate_content, generate_image,
      upscale_image, upload_image_to_bannerbear, create_video_rendering,
      download_video, upload_video_to_pinterest, py_truthy,
      hc, hp, hi, hb, hup, hu2, hbb, hbb2, hr, hr2, hwp, hurl, hd, hvb, hpub]

/-! ### Claim theorems: draft gating -/

/-- Start Generation oracles with a parseable but below-threshold
fact-check response. -/
def start_low : StartOracles :=
  { search := Except.ok [], draft := Except.ok "draft one",
    factcheck := Except.ok "Confidence: 30 - dubious" }

/-- C5: when the fresh draft's fact-check fails the threshold, the Start
Generation step leaves the session state exactly as it was — the draft is
not stored, no filename is written, the step does not advance to the
approval stage — and the failure score and explanation are reported as a
warning.  The step consumes a single draft-generation outcome, so no
regeneration is attempted. -/
theorem draft_gated_by_fact_check
    (cfg : Config) (o : StartOracles) (st : SessionState) (d : String)
    (houts : (cfg.outputs.contains "blog" || cfg.outputs.contains "pinterest") = true)
    (hd : (generate_content o.draft).2 = some d) (hd2 : d ≠ "")
    (hfail : (fact_check_content (generate_content o.factcheck).2).passed = false) :
    (start_generation cfg o st).1 = st
    ∧ UIMessage.warning ("Fact-check failed: "
        ++ toString (fact_check_content (generate_content o.factcheck).2).confidence
        ++ "% - " ++ (fact_check_content (generate_content o.factcheck).2).explanation)
      ∈ (start_generation cfg o st).2 := by
  rcases hfa : fetch_articles o.search with ⟨m1, arts⟩
  rcases hgc : generate_content o.draft with ⟨m2, bp⟩
  rcases hgf : generate_content o.factcheck with ⟨m3, fr⟩
  rw [hgc] at hd
  have hbp : bp = some d := hd
  subst hbp
  rw [hgf] at hfail
  have hfail' : (fact_check_content fr).passed = false := hfail
  have ht : py_truthy (some d) = true := by simp [py_truthy, hd2]
  simp only [start_generation, hfa, hgc, hgf, houts, ht, if_true, hfail']
  simp

/-- C5 witness: the gate at a concrete below-threshold fact check. -/
theorem draft_gated_by_fact_check_witness :
    (start_generation cfg3 start_low init_state).1 = init_state
    ∧ UIMessage.warning ("Fact-check failed: "
        ++ toString (fact_check_content (generate_content start_low.factcheck).2).confidence
        ++ "% - " ++ (fact_check_content (generate_content start_low.factcheck).2).explanation)
      ∈ (start_generation cfg3 start_low init_state).2 :=
  draft_gated_by_fact_check cfg3 start_low init_state "draft one"
    (by decide) rfl (by decide) (by decide)

/-! ### Decimal rendering is injective

`video_key` builds filenames with `Nat.repr`; the write-once property of
the manifest needs distinct unit indices to give distinct filenames. -/

/-- Helper: `Nat.toDigitsCore` ignores its fuel (when sufficient) and
appends to its accumulator. -/
theorem toDigitsCore_acc (n : Nat) : ∀ (fuel : Nat) (ds : List Char), n < fuel →
    Nat.toDigitsCore 10 fuel n ds = Nat.toDigitsCore 10 (n + 1) n [] ++ ds := by
  induction n using Nat.strong_induction_on with
  | _ n ih =>
    intro fuel ds hfuel
    cases fuel with
    | zero => omega
    | succ f =>
      by_cases h0 : n / 10 = 0
      · simp only [Nat.toDigitsCore, h0, if_true]
        rfl
      · have hlt : n / 10 < n := Nat.div_lt_self (by omega) (by omega)
        simp only [Nat.toDigitsCore, h0, if_false]
        rw [ih (n / 10) hlt f (Nat.digitChar (n % 10) :: ds) (by omega),
          ih (n / 10) hlt n [Nat.digitChar (n % 10)] (by omega)]
        simp

/-- Helper: the recursion equation of `Nat.toDigits` at base 10. -/
theorem toDigits_step (n : Nat) (h : n / 10 ≠ 0) :
    Nat.toDigits 10 n
      = Nat.toDigits 10 (n / 10) ++ [Nat.digitChar (n % 10)] := by
  have hlt : n / 10 < n := Nat.div_lt_self (by omega) (by omega)
  simp only [Nat.toDigits, Nat.toDigitsCore, h, if_false]
  exact toDigitsCore_acc (n / 10) n [Nat.digitChar (n % 10)] (by omega)

/-- The number a digit-character list denotes, reading left to right. -/
def digits_val (l : List Char) : Nat :=
  l.foldl (fun a c => 10 * a + (c.toNat - 48)) 0

/-- Helper: `digitChar` of a digit decodes back to it. -/
theorem digitChar_decode : ∀ d, d < 10 → (Nat.digitChar d).toNat - 48 = d := by
  decide

/-- Helper: `digits_val` decodes `Nat.toDigits 10`. -/
theorem digits_val_toDigits (n : Nat) : digits_val (Nat.toDigits 10 n) = n := by
  induction n using Nat.strong_induction_on with
  | _ n ih =>
    by_cases h0 : n / 10 = 0
    · have hn : n < 10 := by omega
      simp only [Nat.toDigits, Nat.toDigitsCore, h0, if_true]
      have : (Nat.digitChar (n % 10)).toNat - 48 = n % 10 :=
        digitChar_decode (n % 10) (Nat.mod_lt n (by omega))
      simp [digits_val, this]
      omega
    · have hlt : n / 10 < n := Nat.div_lt_self (by omega) (by omega)
      rw [toDigits_step n h0]
      have hdec : (Nat.digitChar (n % 10)).toNat - 48 = n % 10 :=
        digitChar_decode (n % 10) (Nat.mod_lt n (by omega))
      simp only [digits_val, List.foldl_append, List.foldl]
      have := ih (n / 10) hlt
      simp only [digits_val] at this
      rw [this, hdec]
      omega

/-- `Nat.toDigits 10` is injective. -/
theorem toDigits_ten_inj (m n : Nat) (h : Nat.toDigits 10 m = Nat.toDigits 10 n) :
    m = n := by
  have h2 := congrArg digits_val h
  rwa [digits_val_toDigits, digits_val_toDigits] at h2

/-- Distinct unit indices store their videos under distinct filenames. -/
theorem video_key_inj (i j : Nat) (h : video_key i = video_key j) : i = j := by
  have hd := congrArg String.data h
  simp only [video_key, String.data_append] at hd
  have h3 := List.append_cancel_right hd
  have h4 := List.append_cancel_left h3
  have h5 : Nat.toDigits 10 (i + 1) = Nat.toDigits 10 (j + 1) := h4
  have := toDigits_ten_inj (i + 1) (j + 1) h5
  omega

/-- A video filename never collides with a string that does not start with
the letter `p`. -/
theorem video_key_ne (i : Nat) (s : String) (hs : s.data.head? ≠ some 'p') :
    video_key i ≠ s := by
  intro h
  have hd := congrArg String.data h
  simp only [video_key, String.data_append] at hd
  have hp : (("pinterest_video_".data ++ (Nat.repr (i + 1)).data)
      ++ ".mp4".data).head? = some 'p' := rfl
  rw [hd] at hp
  exact hs hp

/-! ### Manifest preservation lemmas -/

/-- Helper: a dict assignment leaves every other key's binding intact. -/
theorem dictGet_dictSet_ne (F : FileDict) (kw kr : String) (v : Option String)
    (h : kw ≠ kr) : dictGet (dictSet F kw v) kr = dictGet F kr := by
  induction F with
  | nil => simp [dictSet, dictGet, h]
  | cons p rest ih =>
    obtain ⟨k0, v0⟩ := p
    by_cases h0 : k0 = kw
    · subst h0
      simp [dictSet, dictGet, h]
    · by_cases h1 : k0 = kr
      · subst h1
        simp [dictSet, dictGet, h0]
      · simp [dictSet, dictGet, h0, h1, ih]

/-- Helper: the short-form loop starting at unit `i` preserves the binding
of every key that is no remaining unit's video filename. -/
theorem gen_pin_loop_files_pres (cfg : Config) (envs : Nat → UnitEnv) :
    ∀ (n i : Nat) (st : SessionState) (k : String) (v : Option String),
      (∀ j, i ≤ j → j < i + n → k ≠ video_key j) →
      dictGet st.generated_files k = some v →
      dictGet (gen_pin_loop cfg envs i n st).1.generated_files k = some v := by
  intro n
  induction n with
  | zero =>
    intro i st k v _ hv
    simpa [gen_pin_loop] using hv
  | succ n ih =>
    intro i st k v hk hv
    rcases hu : pinterest_unit cfg (envs i) i st with ⟨st', rest⟩
    obtain ⟨m, err⟩ := rest
    have hfiles : dictGet st'.generated_files k = some v := by
      have hcases := pinterest_unit_state_cases cfg (envs i) i st
      rw [hu] at hcases
      rcases hcases with h1 | ⟨t, d, r, vb, pu, _, h2⟩
      · have h1' : st' = st := h1
        rw [h1']; exact hv
      · have h2' : st' = { st with
            pin_data_list := st.pin_data_list
              ++ [pin_record cfg t d ("https://www.pinterest.com/pin/" ++ pu ++ "/")],
            generated_files := dictSet st.generated_files (video_key i) (some vb) } := h2
        rw [h2']
        have hne : video_key i ≠ k := fun he =>
          (hk i (by omega) (by omega)) he.symm
        simpa [dictGet_dictSet_ne _ _ _ _ hne] using hv
    cases err with
    | some e =>
      simp only [gen_pin_loop, hu]
      exact hfiles
    | none =>
      rcases hrec : gen_pin_loop cfg envs (i + 1) n st' with ⟨st'', rest2⟩
      have hres := ih (i + 1) st' k v (fun j hj1 hj2 => hk j (by omega) (by omega)) hfiles
      rw [hrec] at hres
      simp only [gen_pin_loop, hu, hrec]
      exact hres

/-- Helper: the Start Generation step writes only `blog_post.txt`. -/
theorem start_generation_files_other (cfg : Config) (o : StartOracles)
    (st : SessionState) (k : String) (hk : k ≠ "blog_post.txt") :
    dictGet (start_generation cfg o st).1.generated_files k
      = dictGet st.generated_files k := by
  rcases hfa : fetch_articles o.search with ⟨m1, arts⟩
  rcases hgc : generate_content o.draft with ⟨m2, bp⟩
  rcases hgf : generate_content o.factcheck with ⟨m3, fr⟩
  simp only [start_generation, hfa, hgc, hgf]
  by_cases houts : (cfg.outputs.contains "blog" || cfg.outputs.contains "pinterest") = true
  · simp only [houts, if_true]
    by_cases ht : py_truthy bp = true
    · simp only [ht, if_true]
      by_cases hpass : (fact_check_content fr).passed = true
      · simp only [hpass, if_true]
        exact dictGet_dictSet_ne _ _ _ _ (Ne.symm hk)
      · simp only [Bool.not_eq_true] at hpass
        simp [hpass]
    · simp only [Bool.not_eq_true] at ht
      simp [ht]
  · simp only [Bool.not_eq_true] at houts
    rw [houts]
    simp

/-- Helper: the approval-stage interactions (approve, reject, and the
revision attempt, which raises before writing) never touch
`generated_files`. -/
theorem app_step_no_file_write (cfg : Config) (ev : Event) (st : SessionState)
    (h : ev = Event.approve ∨ ev = Event.reject ∨ ∃ f, ev = Event.revise f) :
    (app_step cfg ev st).1.generated_files = st.generated_files := by
  rcases h with rfl | rfl | ⟨f, rfl⟩
  · simp only [app_step]
    split <;> rfl
  · simp only [app_step]
    split <;> rfl
  · simp only [app_step]
    split
    · split <;> rfl
    · rfl

/-- Helper: the state after one more event, in projection form. -/
theorem exec_events_cons_fst (cfg : Config) (e : Event) (l : List Event)
    (st : SessionState) :
    (exec_events cfg (e :: l) st).1
      = (exec_events cfg l (app_step cfg e st).1).1 := by
  rcases hs : app_step cfg e st with ⟨st', rest'⟩
  obtain ⟨m, err⟩ := rest'
  simp only [exec_events, hs]

/-- Helper: executing a sequence of events composes. -/
theorem exec_events_append (cfg : Config) (l1 l2 : List Event) (st : SessionState) :
    (exec_events cfg (l1 ++ l2) st).1
      = (exec_events cfg l2 (exec_events cfg l1 st).1).1 := by
  induction l1 generalizing st with
  | nil => rfl
  | cons e rest ih =>
    rw [List.cons_append, exec_events_cons_fst, exec_events_cons_fst, ih]

/-- Helper: a sequence of non-writing events leaves the file dict as is. -/
theorem exec_events_no_write (cfg : Config) (l : List Event)
    (h : ∀ e ∈ l, e = Event.approve ∨ e = Event.reject ∨ ∃ f, e = Event.revise f) :
    ∀ st, (exec_events cfg l st).1.generated_files = st.generated_files := by
  induction l with
  | nil => intro st; simp [exec_events]
  | cons e rest ih =>
    intro st
    rw [exec_events_cons_fst]
    rw [ih (fun e' he' => h e' (by simp [he']))]
    exact app_step_no_file_write cfg e st (h e (by simp))

/-- Helper: the blog-image branch either leaves the state as it was or
stores exactly one payload under `blog_image_upscaled.png`. -/
theorem blog_image_branch_cases (cfg : Config) (m : MediaOracles) (st : SessionState) :
    (blog_image_branch cfg m st).1 = st
    ∨ ∃ u, (blog_image_branch cfg m st).1
        = { st with
            generated_files := dictSet st.generated_files
              "blog_image_upscaled.png" (some u) } := by
  by_cases houts : cfg.outputs.contains "blog" = true
  · have hmem : "blog" ∈ cfg.outputs := by simpa using houts
    rcases h1 : generate_content m.blog_prompt with ⟨g1, p?⟩
    rcases h2 : generate_image m.blog_image with ⟨g2, img?⟩
    rcases h3 : upscale_image m.blog_upscale with ⟨g3, up?⟩
    rcases img? with _ | bi
    · left; simp [blog_image_branch, hmem, h1, h2, py_truthy]
    · by_cases hbi : bi = ""
      · left; simp [blog_image_branch, hmem, h1, h2, py_truthy, hbi]
      · rcases up? with _ | bu
        · left; simp [blog_image_branch, hmem, h1, h2, h3, py_truthy, hbi]
        · by_cases hbu : bu = ""
          · left; simp [blog_image_branch, hmem, h1, h2, h3, py_truthy, hbi, hbu]
          · right
            refine ⟨bu, ?_⟩
            simp [blog_image_branch, hmem, h1, h2, h3, py_truthy, hbi, hbu]
  · left
    simp only [Bool.not_eq_true] at houts
    rw [blog_image_branch, houts]
    simp

/-- Helper: the `generate_images` block preserves the binding of every key
other than the blog image filename and the unit video filenames. -/
theorem generate_images_files_pres (cfg : Config) (m : MediaOracles)
    (st : SessionState) (k : String) (v : Option String)
    (hk1 : k ≠ "blog_image_upscaled.png") (hk2 : ∀ j, k ≠ video_key j)
    (hv : dictGet st.generated_files k = some v) :
    dictGet (generate_images_step cfg m st).1.generated_files k = some v := by
  rcases hb : blog_image_branch cfg m st with ⟨stA, mA⟩
  have hAv : dictGet stA.generated_files k = some v := by
    have hc := blog_image_branch_cases cfg m st
    rw [hb] at hc
    rcases hc with h1 | ⟨u, h2⟩
    · rw [(show stA = st from h1)]; exact hv
    · rw [(show stA = _ from h2)]
      simpa [dictGet_dictSet_ne _ _ _ _ (Ne.symm hk1)] using hv
  simp only [generate_images_step, hb]
  by_cases hg : (cfg.outputs.contains "pinterest" && py_truthy stA.blog_post) = true
  · simp only [hg, if_true]
    rcases hp : generate_pinterest_content cfg m.units stA with ⟨stB, rest⟩
    obtain ⟨mB, err⟩ := rest
    have hp' : gen_pin_loop cfg m.units 0 cfg.post_count stA = (stB, mB, err) := hp
    have hBv : dictGet stB.generated_files k = some v := by
      have hpres := gen_pin_loop_files_pres cfg m.units cfg.post_count 0 stA k v
        (fun j _ _ => hk2 j) hAv
      rw [hp'] at hpres
      exact hpres
    cases err with
    | some e => exact hBv
    | none => exact hBv
  · simp only [Bool.not_eq_true] at hg
    rw [hg]
    simpa using hAv

/-- Helper: from the initial session state, the Start Generation event
binds no filename other than `blog_post.txt`. -/
theorem start_files_only_draft (cfg : Config) (o : StartOracles) (k : String)
    (hk : k ≠ "blog_post.txt") :
    dictGet (app_step cfg (Event.startGen o) init_state).1.generated_files k = none := by
  have h1 : (app_step cfg (Event.startGen o) init_state).1
      = (start_generation cfg o init_state).1 := by
    simp only [app_step]
  rw [h1, start_generation_files_other cfg o init_state k hk]
  rfl

/-- Helper: the events between Start Generation and media generation are
all non-writing. -/
theorem mids_no_write (revs : List String) :
    ∀ e ∈ revs.map Event.revise ++ [Event.approve],
      e = Event.approve ∨ e = Event.reject ∨ ∃ f, e = Event.revise f := by
  intro e he
  rcases List.mem_append.mp he with hm | hm
  · rcases List.mem_map.mp hm with ⟨f, _, rfl⟩
    exact Or.inr (Or.inr ⟨f, rfl⟩)
  · rcases List.mem_singleton.mp hm with rfl
    exact Or.inl rfl

/-! ### Claim theorem: the manifest is write-once within a run -/

/-- C9: along one pipeline run — Start Generation, any number of revision
attempts, approval, media generation — every filename binding present after
any prefix of the run is still present, unchanged, at the end of the run
(revision attempts raise `NameError` before writing, so not even
`blog_post.txt` is ever replaced); and inside the media stage, a video
artifact stored by an earlier unit, and the blog image stored before the
loop, are never replaced by later units, because distinct units use
distinct filenames. -/
theorem manifest_write_once
    (cfg : Config) (o : StartOracles) (revs : List String) (m : MediaOracles)
    (t : Nat) (k : String) (v : Option String)
    (hv : dictGet (exec_events cfg ((run_events o revs m).take t) init_state).1.generated_files k
            = some v) :
    dictGet (exec_events cfg (run_events o revs m) init_state).1.generated_files k = some v
    ∧ (∀ (envs : Nat → UnitEnv) (i n j : Nat) (st : SessionState) (w : Option String),
        j < i → dictGet st.generated_files (video_key j) = some w →
        dictGet (gen_pin_loop cfg envs i n st).1.generated_files (video_key j) = some w)
    ∧ (∀ (envs : Nat → UnitEnv) (i n : Nat) (st : SessionState) (w : Option String),
        dictGet st.generated_files "blog_image_upscaled.png" = some w →
        dictGet (gen_pin_loop cfg envs i n st).1.generated_files "blog_image_upscaled.png"
          = some w) := by
  refine ⟨?_, ?_, ?_⟩
  · -- run-level preservation
    cases t with
    | zero =>
      exact absurd hv (by simp [exec_events, init_state, dictGet])
    | succ s =>
      set mids := revs.map Event.revise ++ [Event.approve] with hmids
      set L := mids ++ [Event.generateImages m] with hL
      have hrun : run_events o revs m = Event.startGen o :: L := by
        rw [hL, hmids, List.append_assoc]
        rfl
      rw [hrun, List.take_succ_cons, exec_events_cons_fst] at hv
      rw [hrun, exec_events_cons_fst]
      set S1 := (app_step cfg (Event.startGen o) init_state).1 with hS1
      by_cases hlen : L.length ≤ s
      · rwa [List.take_of_length_le hlen] at hv
      · -- the prefix stops before the final media event
        have hs : s ≤ mids.length := by
          have h1 : L.length = mids.length + 1 := by
            rw [hL]
            simp
          omega
        have htake : L.take s = mids.take s := by
          rw [hL, List.take_append_of_le_length hs]
        have hpre : ∀ e ∈ L.take s,
            e = Event.approve ∨ e = Event.reject ∨ ∃ f, e = Event.revise f := by
          intro e he
          rw [htake] at he
          exact mids_no_write revs e (hmids ▸ List.mem_of_mem_take he)
        have hfiles1 : (exec_events cfg (L.take s) S1).1.generated_files
            = S1.generated_files := exec_events_no_write cfg (L.take s) hpre S1
        rw [hfiles1] at hv
        -- only the draft filename can be bound at this point
        have hk : k = "blog_post.txt" := by
          by_contra hk
          rw [start_files_only_draft cfg o k hk] at hv
          exact Option.noConfusion hv
        subst hk
        -- the rest of the run preserves the draft binding
        rw [hL, exec_events_append]
        have hfiles2 : (exec_events cfg mids S1).1.generated_files
            = S1.generated_files :=
          exec_events_no_write cfg mids (hmids ▸ mids_no_write revs) S1
        set S2 := (exec_events cfg mids S1).1 with hS2
        have hv2 : dictGet S2.generated_files "blog_post.txt" = some v := by
          rw [hS2, hfiles2]; exact hv
        have hone : (exec_events cfg [Event.generateImages m] S2).1
            = (app_step cfg (Event.generateImages m) S2).1 := by
          rw [exec_events_cons_fst]
          rfl
        rw [hone]
        simp only [app_step]
        by_cases hstep : S2.step = "generate_images"
        · rw [if_pos hstep]
          exact generate_images_files_pres cfg m S2 "blog_post.txt" v (by decide)
            (fun j => Ne.symm (video_key_ne j "blog_post.txt" (by decide))) hv2
        · rw [if_neg hstep]
          exact hv2
  · intro envs i n j st w hj hw
    exact gen_pin_loop_files_pres cfg envs n i st (video_key j) w
      (fun j' h1 _ heq => absurd (video_key_inj j j' heq) (by omega)) hw
  · intro envs i n st w hw
    exact gen_pin_loop_files_pres cfg envs n i st "blog_image_upscaled.png" w
      (fun j _ _ => Ne.symm (video_key_ne j "blog_image_upscaled.png" (by decide))) hw

/-! ### Witnesses -/

/-- All calls succeed except the final publish upload. -/
def env_pub_fail (i : Nat) : UnitEnv :=
  { env_full i with publish := Except.error "denied" }

/-- Media oracles whose every unit succeeds. -/
def media_ok : MediaOracles :=
  { blog_prompt := Except.ok "p", blog_image := Except.ok "bi",
    blog_upscale := Except.ok "bu", units := env_full }

/-- C8 witness: one fully successful unit appends exactly its pin row; one
unit failing at publish leaves the state untouched. -/
theorem publish_outcome_per_unit_witness :
    (pinterest_unit cfg3 (env_full 0) 0 init_state).1.pin_data_list
        = init_state.pin_data_list
          ++ [pin_record cfg3 "T1" "D" "https://www.pinterest.com/pin/123/"]
    ∧ (pinterest_unit cfg3 (env_pub_fail 0) 0 init_state).1 = init_state := by
  constructor
  · exact ((publish_outcome_per_unit cfg3 (env_full 0) 0 init_state
      "Title: T1\nDescription: D\nHashtags: #x #y" "T1" "D" ["#x", "#y"]
      "img" "ups" "uid" "ruid" "vid" "http://v"
      rfl (by decide) rfl (by decide) rfl (by decide)
      rfl (by decide) rfl (by decide) (by decide) (by decide)
      rfl (by decide)).1 "123" rfl).1
  · exact (((publish_outcome_per_unit cfg3 (env_pub_fail 0) 0 init_state
      "Title: T1\nDescription: D\nHashtags: #x #y" "T1" "D" ["#x", "#y"]
      "img" "ups" "uid" "ruid" "vid" "http://v"
      rfl (by decide) rfl (by decide) rfl (by decide)
      rfl (by decide) rfl (by decide) (by decide) (by decide)
      rfl (by decide)).2) "denied" rfl).1

/-- C9 witness: in a concrete full run, the draft stored by Start
Generation is still bound to the same payload when the run ends. -/
theorem manifest_write_once_witness :
    dictGet (exec_events cfg3 (run_events start_ok [] media_ok) init_state).1.generated_files
      "blog_post.txt" = some (some "draft one") :=
  (manifest_write_once cfg3 start_ok [] media_ok 1 "blog_post.txt" (some "draft one")
    (by decide)).1

end MarketTeam
